import Mathlib

/-!
# Anduril, Loneoceans Lume-X1-40W: build configuration and board set-up

A shallow embedding of

* `ui/anduril/config-override.h`: a sequence of preprocessor directives, read
  as a function on build configurations;
* `hw/loneoceans/lume-x1-40w/hwdef.h`: the channel-mode table, the pin
  definitions and the register writes of `hwdef_setup`.
-/

namespace Anduril

/-! ## `config-override.h` -/

/-- Replacement text of an object-like definition: nothing at all
(`#define USE_BUTTON_LED`) or an integer constant (`#define SIMPLE_UI_ACTIVE 0`). -/
inductive Body
  | empty
  | num (n : Int)
  deriving DecidableEq

/-- A build configuration: which names are defined, and as what. -/
abbrev Config := String → Option Body

/-- The two kinds of directive the override file uses. -/
inductive Directive
  | undefine (name : String)
  | define (name : String) (body : Body)

/-- Effect of one directive on the configuration. -/
def Directive.run : Directive → Config → Config
  | .undefine n, cfg => fun k => if k = n then none else cfg k
  | .define n b, cfg => fun k => if k = n then some b else cfg k

/-- The directives of `config-override.h`, top to bottom, with the `#if` on
`MCU` resolved (lines 3-24). -/
def config_override_directives (MCU : Int) : List Directive :=
  [ .undefine "DEFAULT_THERM_CEIL",
    .undefine "USE_AUX_RGB_LEDS_WHILE_ON",
    .undefine "SIMPLE_UI_ACTIVE",
    .undefine "DEFAULT_AUTOLOCK_TIME",
    .undefine "RGB_LED_LOCKOUT_DEFAULT",
    .undefine "RGB_LED_OFF_DEFAULT",
    if MCU = 0x85 ∨ MCU = 0x1634 then
      .define "DEFAULT_THERM_CEIL" (.num 40)
    else
      .define "DEFAULT_THERM_CEIL" (.num 45),
    .define "USE_BUTTON_LED" .empty,
    .define "USE_AUX_RGB_LEDS_WHILE_ON" (.num 25),
    .define "USE_INDICATOR_LED_WHILE_RAMPING" .empty,
    .define "SIMPLE_UI_ACTIVE" (.num 0),
    .define "DEFAULT_AUTOLOCK_TIME" (.num 5),
    .define "RGB_LED_LOCKOUT_DEFAULT" (.num 0x09),
    .define "RGB_LED_OFF_DEFAULT" (.num 0x39) ]

/-- The file `config-override.h` as a function on configurations. -/
def config_override (MCU : Int) (prior : Config) : Config :=
  (config_override_directives MCU).foldl (fun cfg d => d.run cfg) prior

/-- The configuration in which nothing is defined. -/
def emptyConfig : Config := fun _ => none

/-- The six options the specification enumerates for the configuration
struct (thermal ceiling, autolock timeout, aux LED while on, simple UI,
RGB lockout colour, RGB off colour), under the names the firmware gives them. -/
def specOptions : List String :=
  [ "DEFAULT_THERM_CEIL", "DEFAULT_AUTOLOCK_TIME", "USE_AUX_RGB_LEDS_WHILE_ON",
    "SIMPLE_UI_ACTIVE", "RGB_LED_LOCKOUT_DEFAULT", "RGB_LED_OFF_DEFAULT" ]

/-- The two feature switches the file turns on besides the six options. -/
def featureSwitches : List String :=
  [ "USE_BUTTON_LED", "USE_INDICATOR_LED_WHILE_RAMPING" ]

/-- The names the file gives a definition to: those of its `#define` lines. -/
def definedNames (MCU : Int) : List String :=
  (config_override_directives MCU).filterMap fun d =>
    match d with
    | .define n _ => some n
    | .undefine _ => none

/-! ## `hwdef.h`: channel modes -/

/-- Line 51: `#define NUM_CHANNEL_MODES (1 + NUM_RGB_AUX_CHANNEL_MODES)`; the
number of aux RGB modes comes from `fsm/chan-rgbaux.h` and is a parameter. -/
def NUM_CHANNEL_MODES (NUM_RGB_AUX_CHANNEL_MODES : Nat) : Nat :=
  1 + NUM_RGB_AUX_CHANNEL_MODES

/-- Line 53: first enumerator of `enum CHANNEL_MODES`. -/
def CM_MAIN : Nat := 0

/-- Line 57. -/
def DEFAULT_CHANNEL_MODE : Nat := CM_MAIN

/-- Line 60: `0b0000000000000001`. -/
def CHANNEL_MODES_ENABLED : Nat := 0b0000000000000001

/-- Whether channel mode `i` is enabled: bit `i`, right-most bit first. -/
def channelModeEnabled (i : Nat) : Bool := CHANNEL_MODES_ENABLED.testBit i

/-! ## Device constants

Values of the ATtiny1616 device header, which the board file uses by name. -/

/-- Bit position of pin `n` within its port (`PINn_bp`). -/
def PIN_bp (n : Nat) : Nat := n

/-- Bit mask of pin `n` within its port (`PINn_bm`). -/
def PIN_bm (n : Nat) : Nat := 1 <<< n

def PIN0_bp : Nat := PIN_bp 0
def PIN1_bp : Nat := PIN_bp 1
def PIN3_bp : Nat := PIN_bp 3
def PIN0_bm : Nat := PIN_bm 0
def PIN1_bm : Nat := PIN_bm 1
def PIN3_bm : Nat := PIN_bm 3
def PIN4_bm : Nat := PIN_bm 4
def PIN5_bm : Nat := PIN_bm 5
def PIN6_bm : Nat := PIN_bm 6
def PIN7_bm : Nat := PIN_bm 7

/-- Pull-up enable bit of a `PINnCTRL` register. -/
def PORT_PULLUPEN_bm : Nat := 0x08
/-- Input/sense configuration field of a `PINnCTRL` register. -/
def PORT_ISC_gm : Nat := 0x07
def PORT_ISC_INTDISABLE_gc : Nat := 0x00
def PORT_ISC_BOTHEDGES_gc : Nat := 0x01
def PORT_ISC_RISING_gc : Nat := 0x02
def PORT_ISC_FALLING_gc : Nat := 0x03

/-- DAC0 reference-select field of `VREF.CTRLA`. -/
def VREF_DAC0REFSEL_gm : Nat := 0x07
/-- ADC0 reference-select field of `VREF.CTRLA`. -/
def VREF_ADC0REFSEL_gm : Nat := 0x70
def VREF_DAC0REFSEL_0V55_gc : Nat := 0x00
def VREF_DAC0REFSEL_1V1_gc : Nat := 0x01
def VREF_DAC0REFSEL_2V5_gc : Nat := 0x02
def VREF_DAC0REFSEL_4V34_gc : Nat := 0x03
def VREF_DAC0REFSEL_1V5_gc : Nat := 0x04
/-- DAC0 reference enable bit of `VREF.CTRLB`. -/
def VREF_DAC0REFEN_bm : Nat := 0x01
/-- DAC enable bit of `DAC0.CTRLA`. -/
def DAC_ENABLE_bm : Nat := 0x01
/-- DAC output-buffer enable bit of `DAC0.CTRLA`. -/
def DAC_OUTEN_bm : Nat := 0x40

/-! ## Ports, pins and registers -/

/-- The three I/O ports of the 20-pin package. -/
inductive Port
  | A | B | C
  deriving DecidableEq

/-- A physical pin: a port and a bit of its 8-bit registers. -/
structure Pin where
  port : Port
  bit : Fin 8
  deriving DecidableEq

def PA0 : Pin := ⟨.A, 0⟩
def PA1 : Pin := ⟨.A, 1⟩
def PA2 : Pin := ⟨.A, 2⟩
def PA3 : Pin := ⟨.A, 3⟩
def PA4 : Pin := ⟨.A, 4⟩
def PA5 : Pin := ⟨.A, 5⟩
def PA6 : Pin := ⟨.A, 6⟩
def PA7 : Pin := ⟨.A, 7⟩
def PB0 : Pin := ⟨.B, 0⟩
def PB1 : Pin := ⟨.B, 1⟩
def PB2 : Pin := ⟨.B, 2⟩
def PB3 : Pin := ⟨.B, 3⟩
def PB4 : Pin := ⟨.B, 4⟩
def PB5 : Pin := ⟨.B, 5⟩
def PC0 : Pin := ⟨.C, 0⟩
def PC1 : Pin := ⟨.C, 1⟩
def PC2 : Pin := ⟨.C, 2⟩
def PC3 : Pin := ⟨.C, 3⟩

/-- The I/O pins of the package, as the pinout comment lists them (lines 14-40). -/
def packagePins : List Pin :=
  [ PA0, PA1, PA2, PA3, PA4, PA5, PA6, PA7,
    PB0, PB1, PB2, PB3, PB4, PB5,
    PC0, PC1, PC2, PC3 ]

/-- The pins the pinout comment marks as not used (lines 18-20 and 31). -/
def unusedPins : List Pin := [ PA3, PA5, PC2, PB2 ]

/-- The memory-mapped registers `hwdef_setup` touches, each 8 bits wide.
`DIR p` is `PORTp.DIR`, which `VPORTp.DIR` mirrors; `DAC_LVL` is the location
the firmware writes DAC levels to under that name (the DAC data register). -/
structure Regs where
  DIR : Port → Nat
  OUT : Port → Nat
  PINCTRL : Port → Fin 8 → Nat
  VREF_CTRLA : Nat
  VREF_CTRLB : Nat
  DAC0_CTRLA : Nat
  DAC_LVL : Nat
  CLKCTRL_MCLKCTRLB : Nat

/-- Register contents after a device reset: the port, reference and DAC
registers read zero, the clock prescaler is enabled at divide-by-6. -/
def resetRegs : Regs :=
  { DIR := fun _ => 0
    OUT := fun _ => 0
    PINCTRL := fun _ _ => 0
    VREF_CTRLA := 0
    VREF_CTRLB := 0
    DAC0_CTRLA := 0
    DAC_LVL := 0
    CLKCTRL_MCLKCTRLB := 0x11 }

/-- Store to an 8-bit register. -/
def u8 (v : Nat) : Nat := v % 256

/-- Bitwise complement within 8 bits. -/
def not8 (v : Nat) : Nat := 0xFF ^^^ u8 v

/-- Store `VPORTp.DIR = v`. -/
def Regs.setDIR (s : Regs) (p : Port) (v : Nat) : Regs :=
  { s with DIR := fun q => if q = p then u8 v else s.DIR q }

/-- Store `PORTp.DIRCLR = v`: clears in `PORTp.DIR` the bits set in `v`. -/
def Regs.writeDIRCLR (s : Regs) (p : Port) (v : Nat) : Regs :=
  { s with DIR := fun q => if q = p then s.DIR q &&& not8 v else s.DIR q }

/-- Store `PORTp_OUT = v`. -/
def Regs.setOUT (s : Regs) (p : Port) (v : Nat) : Regs :=
  { s with OUT := fun q => if q = p then u8 v else s.OUT q }

/-- Store `PORTp.PINnCTRL = v`. -/
def Regs.setPINCTRL (s : Regs) (p : Port) (n : Fin 8) (v : Nat) : Regs :=
  { s with PINCTRL := fun q m => if q = p ∧ m = n then u8 v else s.PINCTRL q m }

/-- Pin `p` is configured as an output: its bit of the port's `DIR` is 1. -/
def isOutput (s : Regs) (p : Pin) : Bool := (s.DIR p.port).testBit p.bit

/-- Pin `p` is configured as an input. -/
def isInput (s : Regs) (p : Pin) : Bool := !isOutput s p

/-- The internal pull-up of pin `p` is enabled. -/
def pullupEnabled (s : Regs) (p : Pin) : Bool :=
  s.PINCTRL p.port p.bit &&& PORT_PULLUPEN_bm != 0

/-- Input/sense configuration of pin `p`. -/
def senseConfig (s : Regs) (p : Pin) : Nat :=
  s.PINCTRL p.port p.bit &&& PORT_ISC_gm

/-! ## `hwdef.h`: pin definitions (lines 79-150) -/

/-- What a `..._PORT` name of the board file refers to: the output register
`PORTp_OUT`, the port `PORTp` itself, or the input register `VPORTp.IN`. -/
inductive PortRef
  | PORT_OUT (p : Port)
  | PORT (p : Port)
  | VPORT_IN (p : Port)
  deriving DecidableEq

/-- The port a `..._PORT` name belongs to. -/
def PortRef.port : PortRef → Port
  | .PORT_OUT p => p
  | .PORT p => p
  | .VPORT_IN p => p

def PORTA_OUT : PortRef := .PORT_OUT .A
def PORTB_OUT : PortRef := .PORT_OUT .B
def PORTB : PortRef := .PORT .B
def PORTC : PortRef := .PORT .C
def VPORTC_IN : PortRef := .VPORT_IN .C

def BST_ENABLE_PIN : Nat := PIN3_bp
def BST_ENABLE_PORT : PortRef := PORTB_OUT
def LED_PATH1_PIN : Nat := PIN7_bm
def LED_PATH1_PORT : PortRef := PORTA_OUT
def LED_PATH2_PIN : Nat := PIN5_bm
def LED_PATH2_PORT : PortRef := PORTB_OUT
def LED_PATH3_PIN : Nat := PIN4_bm
def LED_PATH3_PORT : PortRef := PORTB_OUT
/-- Lines 114-117; the values the header gives when `BUTTON_LED_PIN` is not
defined beforehand. -/
def BUTTON_LED_PIN : Nat := PIN1_bp
def BUTTON_LED_PORT : PortRef := PORTC
def AUXLED_R_PIN : Nat := PIN0_bp
def AUXLED_G_PIN : Nat := PIN0_bp
def AUXLED_B_PIN : Nat := PIN1_bp
def AUXLED_R_PORT : PortRef := PORTC
def AUXLED_G_PORT : PortRef := PORTB
def AUXLED_B_PORT : PortRef := PORTB
/-- Lines 135-141; the values the header gives when `SWITCH_PIN` is not
defined beforehand. -/
def SWITCH_PIN : Nat := PIN3_bp
def SWITCH_PORT : PortRef := VPORTC_IN
/-- The name `SWITCH_ISC_REG` is `PORTC.PIN3CTRL`: the pin-control register of PC3. -/
def SWITCH_ISC_REG : Pin := ⟨.C, 3⟩
def POWER_BANK_EN_PIN : Nat := PIN4_bm
def POWER_BANK_EN_PORT : PortRef := PORTA_OUT

/-- The pin number whose bit mask is `bm` (0 when `bm` is no single-pin mask). -/
def maskPos (bm : Nat) : Nat :=
  ((List.range 8).find? fun n => PIN_bm n == bm).getD 0

/-- The physical pin named by a port and a bit position (`PINn_bp`). -/
def pinOfPos (r : PortRef) (bp : Nat) : Pin := ⟨r.port, Fin.ofNat bp⟩

/-- The physical pin named by a port and a bit mask (`PINn_bm`). -/
def pinOfMask (r : PortRef) (bm : Nat) : Pin := ⟨r.port, Fin.ofNat (maskPos bm)⟩

/-- The functions the board assigns to pins. -/
inductive PinFunction
  | LED_PATH1 | LED_PATH2 | LED_PATH3
  | BST_ENABLE | POWER_BANK_EN
  | AUXLED_R | AUXLED_G | AUXLED_B
  | BUTTON_LED | SWITCH | DAC_OUT
  deriving DecidableEq

/-- All pin functions. -/
def PinFunction.all : List PinFunction :=
  [ .LED_PATH1, .LED_PATH2, .LED_PATH3, .BST_ENABLE, .POWER_BANK_EN,
    .AUXLED_R, .AUXLED_G, .AUXLED_B, .BUTTON_LED, .SWITCH, .DAC_OUT ]

/-- The pin the definitions of the header give each function. The DAC output
has no definition of its own: the device routes DAC0 to PA6, the pin
`hwdef_setup` makes an output with `PIN6_bm` of port A (line 164). -/
def pinAssignment : PinFunction → Pin
  | .LED_PATH1 => pinOfMask LED_PATH1_PORT LED_PATH1_PIN
  | .LED_PATH2 => pinOfMask LED_PATH2_PORT LED_PATH2_PIN
  | .LED_PATH3 => pinOfMask LED_PATH3_PORT LED_PATH3_PIN
  | .BST_ENABLE => pinOfPos BST_ENABLE_PORT BST_ENABLE_PIN
  | .POWER_BANK_EN => pinOfMask POWER_BANK_EN_PORT POWER_BANK_EN_PIN
  | .AUXLED_R => pinOfPos AUXLED_R_PORT AUXLED_R_PIN
  | .AUXLED_G => pinOfPos AUXLED_G_PORT AUXLED_G_PIN
  | .AUXLED_B => pinOfPos AUXLED_B_PORT AUXLED_B_PIN
  | .BUTTON_LED => pinOfPos BUTTON_LED_PORT BUTTON_LED_PIN
  | .SWITCH => pinOfPos SWITCH_PORT SWITCH_PIN
  | .DAC_OUT => pinOfMask PORTA_OUT PIN6_bm

/-- The pin the pinout comment at the top of the header documents for each
function (lines 15 and 25-40). -/
def pinoutComment : PinFunction → Pin
  | .DAC_OUT => PA6
  | .BST_ENABLE => PB3
  | .SWITCH => PC3
  | .LED_PATH1 => PA7
  | .LED_PATH2 => PB5
  | .LED_PATH3 => PB4
  | .BUTTON_LED => PC1
  | .AUXLED_R => PC0
  | .AUXLED_G => PB0
  | .AUXLED_B => PB1
  | .POWER_BANK_EN => PA4

/-! ## `hwdef.h`: `hwdef_setup` (lines 156-209) -/

/-- The body of `hwdef_setup`, statement by statement. `mcu_clock_speed` is
defined outside this header and is a parameter; `USE_OTG_IN_MOMENTARY` tells
whether that name is defined at build time. -/
def hwdef_setup (mcu_clock_speed : Regs → Regs) (USE_OTG_IN_MOMENTARY : Bool)
    (s0 : Regs) : Regs :=
  let s := mcu_clock_speed s0
  -- set pins as 1 for output pins
  let s := s.setDIR .A (PIN4_bm ||| PIN6_bm ||| PIN7_bm)
  let s := s.setDIR .B (PIN0_bm ||| PIN1_bm ||| PIN3_bm ||| PIN4_bm ||| PIN5_bm)
  let s := s.setDIR .C PIN0_bm
  -- set OTG pin to low during startup
  let s := if USE_OTG_IN_MOMENTARY then
      s.setOUT POWER_BANK_EN_PORT.port
        (s.OUT POWER_BANK_EN_PORT.port &&& not8 POWER_BANK_EN_PIN)
    else s
  let s := s.writeDIRCLR .C PIN1_bm
  -- pullups on input pins, and unused pins
  let s := s.setPINCTRL .A 0 PORT_PULLUPEN_bm
  let s := s.setPINCTRL .A 1 PORT_PULLUPEN_bm
  let s := s.setPINCTRL .A 2 PORT_PULLUPEN_bm
  let s := s.setPINCTRL .A 3 PORT_PULLUPEN_bm
  let s := s.setPINCTRL .A 5 PORT_PULLUPEN_bm
  let s := s.setPINCTRL .B 2 PORT_PULLUPEN_bm
  -- e-switch
  let s := s.setPINCTRL .C 3 PORT_ISC_BOTHEDGES_gc
  -- set up the DAC
  let s := { s with VREF_CTRLA := u8 (s.VREF_CTRLA ||| VREF_DAC0REFSEL_2V5_gc) }
  let s := { s with VREF_CTRLB := u8 (s.VREF_CTRLB ||| VREF_DAC0REFEN_bm) }
  let s := { s with DAC0_CTRLA := u8 (DAC_ENABLE_bm ||| DAC_OUTEN_bm) }
  { s with DAC_LVL := u8 0 }

/-- Modelled from the spec: `mcu_clock_speed` is called first by `hwdef_setup`
and its definition is not in the board file, nor described by the
specification. This stand-in for concrete runs writes the main-clock
prescaler (divide by 2, prescaler enabled) and nothing else. -/
def mcu_clock_speed_prescale (s : Regs) : Regs :=
  { s with CLKCTRL_MCLKCTRLB := 0x01 }

/-- The interrupt of a pin fires on a rising edge under this sense configuration. -/
def sensesRising (isc : Nat) : Bool :=
  isc == PORT_ISC_BOTHEDGES_gc || isc == PORT_ISC_RISING_gc

/-- The interrupt of a pin fires on a falling edge under this sense configuration. -/
def sensesFalling (isc : Nat) : Bool :=
  isc == PORT_ISC_BOTHEDGES_gc || isc == PORT_ISC_FALLING_gc

end Anduril

namespace Anduril

/-! ## Register contents after `hwdef_setup` -/

theorem hwdef_setup_DIR (clk : Regs → Regs) (otg : Bool) (s0 : Regs) (q : Port) :
    (hwdef_setup clk otg s0).DIR q =
      match q with
      | .A => 0xD0
      | .B => 0x3B
      | .C => 0x01 := by
  cases q <;> cases otg <;>
    simp [hwdef_setup, Regs.setDIR, Regs.writeDIRCLR, Regs.setPINCTRL, Regs.setOUT] <;>
    decide

theorem hwdef_setup_PINCTRL (clk : Regs → Regs) (otg : Bool) (s0 : Regs) (p : Pin) :
    (hwdef_setup clk otg s0).PINCTRL p.port p.bit =
      if p = PC3 then PORT_ISC_BOTHEDGES_gc
      else if p ∈ [PA0, PA1, PA2, PA3, PA5, PB2] then PORT_PULLUPEN_bm
      else (clk s0).PINCTRL p.port p.bit := by
  rcases p with ⟨q, m⟩
  cases q <;> cases otg <;> fin_cases m <;> rfl

theorem hwdef_setup_VREF_CTRLA (clk : Regs → Regs) (otg : Bool) (s0 : Regs) :
    (hwdef_setup clk otg s0).VREF_CTRLA
      = u8 ((clk s0).VREF_CTRLA ||| VREF_DAC0REFSEL_2V5_gc) := by
  cases otg <;>
    simp [hwdef_setup, Regs.setDIR, Regs.writeDIRCLR, Regs.setPINCTRL, Regs.setOUT]

theorem hwdef_setup_VREF_CTRLB (clk : Regs → Regs) (otg : Bool) (s0 : Regs) :
    (hwdef_setup clk otg s0).VREF_CTRLB
      = u8 ((clk s0).VREF_CTRLB ||| VREF_DAC0REFEN_bm) := by
  cases otg <;>
    simp [hwdef_setup, Regs.setDIR, Regs.writeDIRCLR, Regs.setPINCTRL, Regs.setOUT]

theorem hwdef_setup_DAC0_CTRLA (clk : Regs → Regs) (otg : Bool) (s0 : Regs) :
    (hwdef_setup clk otg s0).DAC0_CTRLA = 0x41 := by
  cases otg <;>
    simp [hwdef_setup, Regs.setDIR, Regs.writeDIRCLR, Regs.setPINCTRL, Regs.setOUT] <;>
    decide

theorem hwdef_setup_DAC_LVL (clk : Regs → Regs) (otg : Bool) (s0 : Regs) :
    (hwdef_setup clk otg s0).DAC_LVL = 0 := by
  cases otg <;>
    simp [hwdef_setup, Regs.setDIR, Regs.writeDIRCLR, Regs.setPINCTRL, Regs.setOUT, u8]

/-- An 8-bit value with a bit ORed in keeps that bit through the store. -/
theorem u8_or_and_self (v m : Nat) (hm : m < 256) : u8 (v ||| m) &&& m = m := by
  apply Nat.eq_of_testBit_eq
  intro i
  simp only [u8, Nat.testBit_and, Nat.testBit_or, show (256 : Nat) = 2 ^ 8 from rfl,
    Nat.testBit_mod_two_pow]
  by_cases hi : i < 8
  · simp only [hi, decide_True, Bool.true_and]
    cases v.testBit i <;> cases m.testBit i <;> rfl
  · have h8 : 8 ≤ i := by omega
    have hpow : (2 : Nat) ^ 8 ≤ 2 ^ i := Nat.pow_le_pow_right (by decide) h8
    have hlt : m < 2 ^ i := lt_of_lt_of_le hm hpow
    have : m.testBit i = false := Nat.testBit_lt_two_pow hlt
    simp [hi, this]

/-- The pins `hwdef_setup` leaves as outputs. -/
theorem isOutput_hwdef_setup (clk : Regs → Regs) (otg : Bool) (s0 : Regs) (p : Pin) :
    isOutput (hwdef_setup clk otg s0) p = true
      ↔ p ∈ [PA4, PA6, PA7, PB0, PB1, PB3, PB4, PB5, PC0] := by
  rcases p with ⟨q, m⟩
  simp only [isOutput, hwdef_setup_DIR]
  cases q <;> fin_cases m <;> decide

/-- The pins `hwdef_setup` leaves as inputs. -/
theorem isInput_hwdef_setup (clk : Regs → Regs) (otg : Bool) (s0 : Regs) (p : Pin) :
    isInput (hwdef_setup clk otg s0) p = true
      ↔ p ∉ [PA4, PA6, PA7, PB0, PB1, PB3, PB4, PB5, PC0] := by
  rw [← isOutput_hwdef_setup clk otg s0 p]
  simp [isInput]

/-! ## `config-override.h` -/

/-- C1: whatever the prior configuration (and whatever `MCU`), after the
override `USE_AUX_RGB_LEDS_WHILE_ON` is 25, `SIMPLE_UI_ACTIVE` is 0,
`DEFAULT_AUTOLOCK_TIME` is 5, `RGB_LED_LOCKOUT_DEFAULT` is 0x09 and
`RGB_LED_OFF_DEFAULT` is 0x39; two prior configurations give the same result
for each of the five. -/
theorem config_override_fixed_options (MCU : Int) (prior prior' : Config) :
    (config_override MCU prior "USE_AUX_RGB_LEDS_WHILE_ON" = some (.num 25) ∧
     config_override MCU prior "SIMPLE_UI_ACTIVE" = some (.num 0) ∧
     config_override MCU prior "DEFAULT_AUTOLOCK_TIME" = some (.num 5) ∧
     config_override MCU prior "RGB_LED_LOCKOUT_DEFAULT" = some (.num 0x09) ∧
     config_override MCU prior "RGB_LED_OFF_DEFAULT" = some (.num 0x39)) ∧
    (config_override MCU prior "USE_AUX_RGB_LEDS_WHILE_ON"
        = config_override MCU prior' "USE_AUX_RGB_LEDS_WHILE_ON" ∧
     config_override MCU prior "SIMPLE_UI_ACTIVE"
        = config_override MCU prior' "SIMPLE_UI_ACTIVE" ∧
     config_override MCU prior "DEFAULT_AUTOLOCK_TIME"
        = config_override MCU prior' "DEFAULT_AUTOLOCK_TIME" ∧
     config_override MCU prior "RGB_LED_LOCKOUT_DEFAULT"
        = config_override MCU prior' "RGB_LED_LOCKOUT_DEFAULT" ∧
     config_override MCU prior "RGB_LED_OFF_DEFAULT"
        = config_override MCU prior' "RGB_LED_OFF_DEFAULT") := by
  simp [config_override, config_override_directives, Directive.run]

/-- The thermal ceiling after the override, as a function of `MCU` alone. -/
theorem config_override_therm_ceil (MCU : Int) (prior : Config) :
    config_override MCU prior "DEFAULT_THERM_CEIL"
      = some (.num (if MCU = 0x85 ∨ MCU = 0x1634 then 40 else 45)) := by
  by_cases h : MCU = 0x85 ∨ MCU = 0x1634 <;>
    simp [config_override, config_override_directives, Directive.run, h]

/-- C2: for every `MCU` and every prior configuration, `DEFAULT_THERM_CEIL`
after the override is 40 exactly when `MCU` is 0x85 or 0x1634 and 45 for every
other `MCU`; the result is the same for any two prior configurations, and it
lies between 40 and 45. -/
theorem config_override_therm_ceil_spec (MCU : Int) (prior prior' : Config) :
    (config_override MCU prior "DEFAULT_THERM_CEIL" = some (.num 40)
        ↔ (MCU = 0x85 ∨ MCU = 0x1634)) ∧
    (¬ (MCU = 0x85 ∨ MCU = 0x1634) →
        config_override MCU prior "DEFAULT_THERM_CEIL" = some (.num 45)) ∧
    config_override MCU prior "DEFAULT_THERM_CEIL"
        = config_override MCU prior' "DEFAULT_THERM_CEIL" ∧
    (∃ c : Int, config_override MCU prior "DEFAULT_THERM_CEIL" = some (.num c)
        ∧ 40 ≤ c ∧ c ≤ 45) := by
  rw [config_override_therm_ceil MCU prior, config_override_therm_ceil MCU prior']
  by_cases h : MCU = 0x85 ∨ MCU = 0x1634
  · simp [h]
  · simp [h]

/-- Witness for C2: an ATtiny1616 (`MCU = 0x1616`), with a prior configuration
that had set the ceiling to 70, gets 45. -/
theorem config_override_therm_ceil_spec_witness :
    ¬ ((0x1616 : Int) = 0x85 ∨ (0x1616 : Int) = 0x1634) ∧
    config_override 0x1616
        (fun k => if k = "DEFAULT_THERM_CEIL" then some (.num 70) else none)
        "DEFAULT_THERM_CEIL" = some (.num 45) :=
  ⟨by decide,
   (config_override_therm_ceil_spec 0x1616
      (fun k => if k = "DEFAULT_THERM_CEIL" then some (.num 70) else none)
      emptyConfig).2.1 (by decide)⟩

/-- C3, as stated, fails: the file defines `USE_BUTTON_LED` (and
`USE_INDICATOR_LED_WHILE_RAMPING`), which are none of the six enumerated
options; starting from the empty configuration both are defined afterwards. -/
theorem config_override_defines_more_than_six :
    "USE_BUTTON_LED" ∈ definedNames 0x1616 ∧
    "USE_BUTTON_LED" ∉ specOptions ∧
    emptyConfig "USE_BUTTON_LED" = none ∧
    config_override 0x1616 emptyConfig "USE_BUTTON_LED" = some .empty ∧
    "USE_INDICATOR_LED_WHILE_RAMPING" ∈ definedNames 0x1616 ∧
    "USE_INDICATOR_LED_WHILE_RAMPING" ∉ specOptions ∧
    config_override 0x1616 emptyConfig "USE_INDICATOR_LED_WHILE_RAMPING" = some .empty := by
  simp [definedNames, config_override, config_override_directives, Directive.run,
    specOptions, emptyConfig]

/-- C3, amended: the names the file defines are exactly the six enumerated
options together with the two feature switches `USE_BUTTON_LED` and
`USE_INDICATOR_LED_WHILE_RAMPING`; after the override each of the six is
defined whatever the prior configuration, the two switches are defined with
an empty body, and every other name keeps what the prior configuration gave it. -/
theorem config_override_defined_names (MCU : Int) (prior : Config) (n : String) :
    (n ∈ definedNames MCU ↔ (n ∈ specOptions ∨ n ∈ featureSwitches)) ∧
    (n ∈ specOptions → (config_override MCU prior n).isSome = true) ∧
    (n ∈ featureSwitches → config_override MCU prior n = some .empty) ∧
    (n ∉ specOptions → n ∉ featureSwitches → config_override MCU prior n = prior n) := by
  refine ⟨?_, ?_, ?_, ?_⟩
  · by_cases h : MCU = 0x85 ∨ MCU = 0x1634 <;>
      simp [definedNames, config_override_directives, specOptions, featureSwitches, h] <;>
      tauto
  · intro hn
    simp only [specOptions, List.mem_cons, List.mem_singleton, List.not_mem_nil, or_false] at hn
    rcases hn with rfl | rfl | rfl | rfl | rfl | rfl <;>
      by_cases h : MCU = 0x85 ∨ MCU = 0x1634 <;>
      simp [config_override, config_override_directives, Directive.run, h]
  · intro hn
    simp only [featureSwitches, List.mem_cons, List.mem_singleton, List.not_mem_nil, or_false] at hn
    rcases hn with rfl | rfl <;>
      by_cases h : MCU = 0x85 ∨ MCU = 0x1634 <;>
      simp [config_override, config_override_directives, Directive.run, h]
  · intro h1 h2
    simp only [specOptions, featureSwitches, List.mem_cons, List.mem_singleton,
      List.not_mem_nil, or_false, not_or] at h1 h2
    obtain ⟨a1, a2, a3, a4, a5, a6⟩ := h1
    obtain ⟨b1, b2⟩ := h2
    by_cases h : MCU = 0x85 ∨ MCU = 0x1634 <;>
      simp [config_override, config_override_directives, Directive.run, h, a1, a2, a3, a4,
        a5, a6, b1, b2]

/-- Witness for C3 amended: on an ATtiny1616 build `SIMPLE_UI_ACTIVE` is one of
the six and defined afterwards, and the untouched name `RAMP_SIZE` keeps its
prior value 150. -/
theorem config_override_defined_names_witness :
    ("SIMPLE_UI_ACTIVE" ∈ specOptions ∧
      (config_override 0x1616 emptyConfig "SIMPLE_UI_ACTIVE").isSome = true) ∧
    ("RAMP_SIZE" ∉ specOptions ∧ "RAMP_SIZE" ∉ featureSwitches ∧
      config_override 0x1616
        (fun k => if k = "RAMP_SIZE" then some (.num 150) else none) "RAMP_SIZE"
        = some (.num 150)) :=
  ⟨⟨by simp [specOptions],
    (config_override_defined_names 0x1616 emptyConfig "SIMPLE_UI_ACTIVE").2.1
      (by simp [specOptions])⟩,
   by simp [specOptions], by simp [featureSwitches],
   (config_override_defined_names 0x1616
      (fun k => if k = "RAMP_SIZE" then some (.num 150) else none) "RAMP_SIZE").2.2.2
      (by simp [specOptions]) (by simp [featureSwitches])⟩

/-! ## `hwdef.h` -/

/-- C4: for every initial register state (and whatever `mcu_clock_speed` does),
after `hwdef_setup` the pins configured as outputs are exactly PA4, PA6, PA7,
PB0, PB1, PB3, PB4, PB5 and PC0; these are the DAC output pin and the pins of
POWER_BANK_EN, LED_PATH1, LED_PATH2, LED_PATH3, BST_ENABLE, AUXLED_R, AUXLED_G
and AUXLED_B; every other pin is an input, among them the e-switch pin PC3,
the button-LED pin PC1 and the microphone input PA2. -/
theorem hwdef_setup_output_pins (mcu_clock_speed : Regs → Regs)
    (USE_OTG_IN_MOMENTARY : Bool) (s0 : Regs) :
    (∀ p : Pin, isOutput (hwdef_setup mcu_clock_speed USE_OTG_IN_MOMENTARY s0) p = true
        ↔ p ∈ [PA4, PA6, PA7, PB0, PB1, PB3, PB4, PB5, PC0]) ∧
    (∀ p : Pin, isInput (hwdef_setup mcu_clock_speed USE_OTG_IN_MOMENTARY s0) p = true
        ↔ p ∉ [PA4, PA6, PA7, PB0, PB1, PB3, PB4, PB5, PC0]) ∧
    (∀ p : Pin, p ∈ [PA4, PA6, PA7, PB0, PB1, PB3, PB4, PB5, PC0]
        ↔ p ∈ [PinFunction.DAC_OUT, .POWER_BANK_EN, .LED_PATH1, .LED_PATH2, .LED_PATH3,
                .BST_ENABLE, .AUXLED_R, .AUXLED_G, .AUXLED_B].map pinAssignment) ∧
    (pinAssignment .SWITCH = PC3 ∧
      isInput (hwdef_setup mcu_clock_speed USE_OTG_IN_MOMENTARY s0) PC3 = true) ∧
    (pinAssignment .BUTTON_LED = PC1 ∧
      isInput (hwdef_setup mcu_clock_speed USE_OTG_IN_MOMENTARY s0) PC1 = true) ∧
    isInput (hwdef_setup mcu_clock_speed USE_OTG_IN_MOMENTARY s0) PA2 = true := by
  have hout := isOutput_hwdef_setup mcu_clock_speed USE_OTG_IN_MOMENTARY s0
  have hin := isInput_hwdef_setup mcu_clock_speed USE_OTG_IN_MOMENTARY s0
  refine ⟨hout, hin, ?_, ⟨by decide, ?_⟩, ⟨by decide, ?_⟩, ?_⟩
  · rintro ⟨q, m⟩
    cases q <;> fin_cases m <;> decide
  · exact (hin PC3).2 (by decide)
  · exact (hin PC1).2 (by decide)
  · exact (hin PA2).2 (by decide)


/-- Witness for C4 (its statement quantifies over list membership): from the
reset state PB3, the boost enable, is an output. -/
theorem hwdef_setup_output_pins_witness :
    PB3 ∈ [PA4, PA6, PA7, PB0, PB1, PB3, PB4, PB5, PC0] ∧
    isOutput (hwdef_setup mcu_clock_speed_prescale false resetRegs) PB3 = true :=
  ⟨by decide,
   ((hwdef_setup_output_pins mcu_clock_speed_prescale false resetRegs).1 PB3).2 (by decide)⟩

/-- C5: for every initial register state, when `hwdef_setup` returns
`DAC0.CTRLA` holds exactly the enable and output-enable bits, the DAC
reference enable bit of `VREF.CTRLB` is set, and `DAC_LVL` is 0, below or
equal to any other level. -/
theorem hwdef_setup_dac_state (mcu_clock_speed : Regs → Regs)
    (USE_OTG_IN_MOMENTARY : Bool) (s0 : Regs) :
    (hwdef_setup mcu_clock_speed USE_OTG_IN_MOMENTARY s0).DAC0_CTRLA
        = DAC_ENABLE_bm ||| DAC_OUTEN_bm ∧
    (hwdef_setup mcu_clock_speed USE_OTG_IN_MOMENTARY s0).DAC0_CTRLA &&& DAC_ENABLE_bm
        = DAC_ENABLE_bm ∧
    (hwdef_setup mcu_clock_speed USE_OTG_IN_MOMENTARY s0).DAC0_CTRLA &&& DAC_OUTEN_bm
        = DAC_OUTEN_bm ∧
    (hwdef_setup mcu_clock_speed USE_OTG_IN_MOMENTARY s0).DAC0_CTRLA
        &&& not8 (DAC_ENABLE_bm ||| DAC_OUTEN_bm) = 0 ∧
    (hwdef_setup mcu_clock_speed USE_OTG_IN_MOMENTARY s0).VREF_CTRLB &&& VREF_DAC0REFEN_bm
        = VREF_DAC0REFEN_bm ∧
    (hwdef_setup mcu_clock_speed USE_OTG_IN_MOMENTARY s0).DAC_LVL = 0 ∧
    (∀ lvl : Nat, (hwdef_setup mcu_clock_speed USE_OTG_IN_MOMENTARY s0).DAC_LVL ≤ lvl) := by
  have hlvl : (hwdef_setup mcu_clock_speed USE_OTG_IN_MOMENTARY s0).DAC_LVL = 0 :=
    hwdef_setup_DAC_LVL mcu_clock_speed USE_OTG_IN_MOMENTARY s0
  rw [hwdef_setup_DAC0_CTRLA, hwdef_setup_VREF_CTRLB, hlvl]
  refine ⟨by decide, by decide, by decide, by decide, ?_, rfl, fun lvl => Nat.zero_le lvl⟩
  exact u8_or_and_self _ _ (by decide)

/-- C6: for every initial register state, after `hwdef_setup` the pin-control
register of the e-switch pin PC3 (`SWITCH_ISC_REG`) selects the interrupt on
both edges, so rising and falling edges are both sensed, its pull-up enable
bit is clear, and PC3 is an input. -/
theorem hwdef_setup_switch_pin (mcu_clock_speed : Regs → Regs)
    (USE_OTG_IN_MOMENTARY : Bool) (s0 : Regs) :
    SWITCH_ISC_REG = PC3 ∧
    pinAssignment .SWITCH = PC3 ∧
    (hwdef_setup mcu_clock_speed USE_OTG_IN_MOMENTARY s0).PINCTRL
        SWITCH_ISC_REG.port SWITCH_ISC_REG.bit = PORT_ISC_BOTHEDGES_gc ∧
    senseConfig (hwdef_setup mcu_clock_speed USE_OTG_IN_MOMENTARY s0) PC3
        = PORT_ISC_BOTHEDGES_gc ∧
    sensesRising (senseConfig (hwdef_setup mcu_clock_speed USE_OTG_IN_MOMENTARY s0) PC3)
        = true ∧
    sensesFalling (senseConfig (hwdef_setup mcu_clock_speed USE_OTG_IN_MOMENTARY s0) PC3)
        = true ∧
    pullupEnabled (hwdef_setup mcu_clock_speed USE_OTG_IN_MOMENTARY s0) PC3 = false ∧
    isInput (hwdef_setup mcu_clock_speed USE_OTG_IN_MOMENTARY s0) PC3 = true := by
  have hreg := hwdef_setup_PINCTRL mcu_clock_speed USE_OTG_IN_MOMENTARY s0 PC3
  simp only [if_true] at hreg
  have hdir := hwdef_setup_DIR mcu_clock_speed USE_OTG_IN_MOMENTARY s0 PC3.port
  refine ⟨rfl, by decide, hreg, ?_, ?_, ?_, ?_, ?_⟩
  · simp only [senseConfig, hreg]; decide
  · simp only [senseConfig, hreg]; decide
  · simp only [senseConfig, hreg]; decide
  · simp only [pullupEnabled, hreg]; decide
  · simp only [isInput, isOutput, hdir]; decide

/-- C7, as stated, fails: from the reset state the button-LED pin PC1 is left
an input, is not the e-switch pin, and has no pull-up after `hwdef_setup`. -/
theorem hwdef_setup_button_led_no_pullup :
    PC1 ∈ packagePins ∧ PC1 ≠ PC3 ∧
    pullupEnabled resetRegs PC1 = false ∧
    isInput (hwdef_setup mcu_clock_speed_prescale false resetRegs) PC1 = true ∧
    pullupEnabled (hwdef_setup mcu_clock_speed_prescale false resetRegs) PC1 = false := by
  decide

/-- The unused pin PC2 is in the same position after `hwdef_setup` from the
reset state: an input without pull-up (its `PINCTRL` line is commented out). -/
theorem hwdef_setup_PC2_no_pullup :
    PC2 ∈ unusedPins ∧ PC2 ≠ PC3 ∧
    isInput (hwdef_setup mcu_clock_speed_prescale false resetRegs) PC2 = true ∧
    pullupEnabled (hwdef_setup mcu_clock_speed_prescale false resetRegs) PC2 = false := by
  decide

/-- Whatever `mcu_clock_speed` is, as long as it leaves the pin-control
registers alone, PC1 and PC2 have no pull-up after `hwdef_setup` from reset. -/
theorem hwdef_setup_PC1_PC2_no_pullup_of_frame (clk : Regs → Regs)
    (hclk : ∀ s : Regs, (clk s).PINCTRL = s.PINCTRL) (otg : Bool) :
    pullupEnabled (hwdef_setup clk otg resetRegs) PC1 = false ∧
    pullupEnabled (hwdef_setup clk otg resetRegs) PC2 = false := by
  have h1 := hwdef_setup_PINCTRL clk otg resetRegs PC1
  have h2 := hwdef_setup_PINCTRL clk otg resetRegs PC2
  rw [if_neg (by decide), if_neg (by decide), hclk] at h1 h2
  simp only [pullupEnabled, h1, h2]
  decide

/-- C7, amended: for every initial register state, after `hwdef_setup` every
package pin left as an input, other than PC1, PC2 and PC3, has its pull-up
enabled; these include the unused pins PA3, PA5 and PB2. The pin-control
register of the button-LED pin PC1 is not written, and the e-switch pin PC3
has its pull-up disabled. -/
theorem hwdef_setup_pullups (mcu_clock_speed : Regs → Regs)
    (USE_OTG_IN_MOMENTARY : Bool) (s0 : Regs) :
    (∀ p ∈ packagePins,
        isInput (hwdef_setup mcu_clock_speed USE_OTG_IN_MOMENTARY s0) p = true →
        p ∉ [PC1, PC2, PC3] →
        pullupEnabled (hwdef_setup mcu_clock_speed USE_OTG_IN_MOMENTARY s0) p = true) ∧
    (∀ p ∈ [PA3, PA5, PB2], p ∈ unusedPins ∧
        pullupEnabled (hwdef_setup mcu_clock_speed USE_OTG_IN_MOMENTARY s0) p = true) ∧
    (hwdef_setup mcu_clock_speed USE_OTG_IN_MOMENTARY s0).PINCTRL PC1.port PC1.bit
        = (mcu_clock_speed s0).PINCTRL PC1.port PC1.bit ∧
    pullupEnabled (hwdef_setup mcu_clock_speed USE_OTG_IN_MOMENTARY s0) PC3 = false := by
  have hpull : ∀ p ∈ [PA0, PA1, PA2, PA3, PA5, PB2],
      pullupEnabled (hwdef_setup mcu_clock_speed USE_OTG_IN_MOMENTARY s0) p = true := by
    intro p hp
    have hne : p ≠ PC3 := by rintro rfl; revert hp; decide
    simp only [pullupEnabled, hwdef_setup_PINCTRL, if_neg hne, if_pos hp]
    decide
  refine ⟨?_, ?_, ?_, ?_⟩
  · intro p hp hin hne
    have hnot := (isInput_hwdef_setup mcu_clock_speed USE_OTG_IN_MOMENTARY s0 p).1 hin
    apply hpull
    revert hp hnot hne
    rcases p with ⟨q, m⟩
    cases q <;> fin_cases m <;> decide
  · intro p hp
    refine ⟨?_, hpull p ?_⟩
    · revert hp; rcases p with ⟨q, m⟩; cases q <;> fin_cases m <;> decide
    · revert hp; rcases p with ⟨q, m⟩; cases q <;> fin_cases m <;> decide
  · have h := hwdef_setup_PINCTRL mcu_clock_speed USE_OTG_IN_MOMENTARY s0 PC1
    rw [if_neg (by decide), if_neg (by decide)] at h
    exact h
  · have h := hwdef_setup_PINCTRL mcu_clock_speed USE_OTG_IN_MOMENTARY s0 PC3
    simp only [if_true] at h
    simp only [pullupEnabled, h]
    decide

/-- Witness for C7 amended: from the reset state the microphone input PA2 is a
package pin left as an input, none of PC1, PC2, PC3, and it is pulled up. -/
theorem hwdef_setup_pullups_witness :
    PA2 ∈ packagePins ∧
    isInput (hwdef_setup mcu_clock_speed_prescale false resetRegs) PA2 = true ∧
    PA2 ∉ [PC1, PC2, PC3] ∧
    pullupEnabled (hwdef_setup mcu_clock_speed_prescale false resetRegs) PA2 = true :=
  ⟨by decide, by decide, by decide,
   (hwdef_setup_pullups mcu_clock_speed_prescale false resetRegs).1 PA2
      (by decide) (by decide) (by decide)⟩

/-- C8: for every number of aux RGB modes, `NUM_CHANNEL_MODES` is one more,
`CM_MAIN` is index 0 and is the default mode, the default mode is enabled in
`CHANNEL_MODES_ENABLED`, and bit `i` is clear for every aux RGB mode index
`1 ≤ i < NUM_CHANNEL_MODES`; the default mode is the only enabled one. -/
theorem channel_modes_consistent (NUM_RGB_AUX_CHANNEL_MODES : Nat) :
    NUM_CHANNEL_MODES NUM_RGB_AUX_CHANNEL_MODES = 1 + NUM_RGB_AUX_CHANNEL_MODES ∧
    CM_MAIN = 0 ∧
    DEFAULT_CHANNEL_MODE = CM_MAIN ∧
    DEFAULT_CHANNEL_MODE < NUM_CHANNEL_MODES NUM_RGB_AUX_CHANNEL_MODES ∧
    channelModeEnabled DEFAULT_CHANNEL_MODE = true ∧
    (∀ i : Nat, 1 ≤ i → i < NUM_CHANNEL_MODES NUM_RGB_AUX_CHANNEL_MODES →
        channelModeEnabled i = false) ∧
    (∀ i : Nat, channelModeEnabled i = true ↔ i = DEFAULT_CHANNEL_MODE) := by
  have hoff : ∀ i : Nat, 1 ≤ i → channelModeEnabled i = false := by
    intro i hi
    have h1 : (2 : Nat) ^ 1 ≤ 2 ^ i := Nat.pow_le_pow_right (by decide) hi
    have hlt : CHANNEL_MODES_ENABLED < 2 ^ i := lt_of_lt_of_le (by decide) h1
    exact Nat.testBit_lt_two_pow hlt
  refine ⟨rfl, rfl, rfl, ?_, by decide, fun i hi _ => hoff i hi, ?_⟩
  · simp only [NUM_CHANNEL_MODES, DEFAULT_CHANNEL_MODE, CM_MAIN]; omega
  · intro i
    constructor
    · intro h
      by_contra hne
      have hi : 1 ≤ i := by
        simp only [DEFAULT_CHANNEL_MODE, CM_MAIN] at hne; omega
      rw [hoff i hi] at h
      exact Bool.false_ne_true h
    · rintro rfl; decide

/-- Witness for C8: with seven aux RGB modes, mode 3 is an aux mode and is
disabled. -/
theorem channel_modes_consistent_witness :
    1 ≤ 3 ∧ 3 < NUM_CHANNEL_MODES 7 ∧ channelModeEnabled 3 = false :=
  ⟨by decide, by decide,
   (channel_modes_consistent 7).2.2.2.2.2.1 3 (by decide) (by decide)⟩

/-- C9: the pin assignment is injective: the three power paths, the boost
enable, the power-bank enable, the aux LEDs R/G/B, the button LED, the
e-switch and the DAC output sit on pairwise distinct pins, each the pin the
pinout comment documents for it; no two power paths share a pin. -/
theorem pin_assignment_injective :
    Function.Injective pinAssignment ∧
    (PinFunction.all.map pinAssignment).Nodup ∧
    (∀ f : PinFunction, f ∈ PinFunction.all ∧ pinAssignment f = pinoutComment f) ∧
    (pinAssignment .LED_PATH1 = PA7 ∧ pinAssignment .LED_PATH2 = PB5 ∧
      pinAssignment .LED_PATH3 = PB4 ∧ pinAssignment .BST_ENABLE = PB3 ∧
      pinAssignment .POWER_BANK_EN = PA4 ∧ pinAssignment .AUXLED_R = PC0 ∧
      pinAssignment .AUXLED_G = PB0 ∧ pinAssignment .AUXLED_B = PB1 ∧
      pinAssignment .BUTTON_LED = PC1 ∧ pinAssignment .SWITCH = PC3 ∧
      pinAssignment .DAC_OUT = PA6) ∧
    (pinAssignment .LED_PATH1 ≠ pinAssignment .LED_PATH2 ∧
      pinAssignment .LED_PATH1 ≠ pinAssignment .LED_PATH3 ∧
      pinAssignment .LED_PATH2 ≠ pinAssignment .LED_PATH3) := by
  refine ⟨?_, by decide, ?_, by decide, by decide⟩
  · intro a b
    cases a <;> cases b <;> decide
  · intro f
    cases f <;> decide

/-- Witness for C9: the aux LEDs R and G, both defined with `PIN0_bp`, are on
different pins because their ports differ. -/
theorem pin_assignment_injective_witness :
    AUXLED_R_PIN = AUXLED_G_PIN ∧ pinAssignment .AUXLED_R ≠ pinAssignment .AUXLED_G :=
  ⟨rfl, fun h => absurd (pin_assignment_injective.1 h) (by decide)⟩

set_option maxRecDepth 100000 in
/-- Facts about ORing the 2.5 V code into an 8-bit `VREF.CTRLA` value. -/
theorem or_2V5_facts : ∀ v < 256,
    u8 (v ||| VREF_DAC0REFSEL_2V5_gc) = v ||| VREF_DAC0REFSEL_2V5_gc ∧
    (v ||| VREF_DAC0REFSEL_2V5_gc) &&& v = v ∧
    (v ||| VREF_DAC0REFSEL_2V5_gc) &&& not8 VREF_DAC0REFSEL_gm
        = v &&& not8 VREF_DAC0REFSEL_gm ∧
    (v ||| VREF_DAC0REFSEL_2V5_gc) &&& VREF_ADC0REFSEL_gm = v &&& VREF_ADC0REFSEL_gm ∧
    (v &&& VREF_DAC0REFSEL_gm = 0 →
        (v ||| VREF_DAC0REFSEL_2V5_gc) &&& VREF_DAC0REFSEL_gm = VREF_DAC0REFSEL_2V5_gc) := by
  decide

/-- C10: provided `mcu_clock_speed` leaves `VREF.CTRLA` alone, `hwdef_setup`
only sets bits in it: from an 8-bit value `v` the final value is
`v ||| VREF_DAC0REFSEL_2V5_gc`; every bit of `v` stays set, the bits outside
the DAC0 reference-select field (the ADC0 reference-select field among them)
are unchanged, and the DAC0 field is the 2.5 V code whenever it was 0 before.
From the 1.1 V code in the field the result is not the 2.5 V code. -/
theorem hwdef_setup_vref_ctrla (mcu_clock_speed : Regs → Regs)
    (hclk : ∀ s : Regs, (mcu_clock_speed s).VREF_CTRLA = s.VREF_CTRLA)
    (USE_OTG_IN_MOMENTARY : Bool) :
    (∀ s0 : Regs, s0.VREF_CTRLA < 256 →
      (hwdef_setup mcu_clock_speed USE_OTG_IN_MOMENTARY s0).VREF_CTRLA
          = s0.VREF_CTRLA ||| VREF_DAC0REFSEL_2V5_gc ∧
      (hwdef_setup mcu_clock_speed USE_OTG_IN_MOMENTARY s0).VREF_CTRLA &&& s0.VREF_CTRLA
          = s0.VREF_CTRLA ∧
      (hwdef_setup mcu_clock_speed USE_OTG_IN_MOMENTARY s0).VREF_CTRLA
          &&& not8 VREF_DAC0REFSEL_gm = s0.VREF_CTRLA &&& not8 VREF_DAC0REFSEL_gm ∧
      (hwdef_setup mcu_clock_speed USE_OTG_IN_MOMENTARY s0).VREF_CTRLA
          &&& VREF_ADC0REFSEL_gm = s0.VREF_CTRLA &&& VREF_ADC0REFSEL_gm ∧
      (s0.VREF_CTRLA &&& VREF_DAC0REFSEL_gm = 0 →
        (hwdef_setup mcu_clock_speed USE_OTG_IN_MOMENTARY s0).VREF_CTRLA
          &&& VREF_DAC0REFSEL_gm = VREF_DAC0REFSEL_2V5_gc)) ∧
    (∃ s0 : Regs, s0.VREF_CTRLA < 256 ∧
      s0.VREF_CTRLA &&& VREF_DAC0REFSEL_gm ≠ 0 ∧
      (hwdef_setup mcu_clock_speed USE_OTG_IN_MOMENTARY s0).VREF_CTRLA
          &&& VREF_DAC0REFSEL_gm ≠ VREF_DAC0REFSEL_2V5_gc) := by
  constructor
  · intro s0 hv
    obtain ⟨h1, h2, h3, h4, h5⟩ := or_2V5_facts s0.VREF_CTRLA hv
    rw [hwdef_setup_VREF_CTRLA, hclk, h1]
    exact ⟨rfl, h2, h3, h4, h5⟩
  · refine ⟨{ resetRegs with VREF_CTRLA := VREF_DAC0REFSEL_1V1_gc }, by decide, by decide, ?_⟩
    rw [hwdef_setup_VREF_CTRLA, hclk]
    decide

/-- Witness for C10: with the ADC0 reference field holding 1 (`0x10`) and the
DAC0 field 0, the final `VREF.CTRLA` is `0x12`. -/
theorem hwdef_setup_vref_ctrla_witness :
    (∀ s : Regs, (mcu_clock_speed_prescale s).VREF_CTRLA = s.VREF_CTRLA) ∧
    (0x10 : Nat) < 256 ∧
    (hwdef_setup mcu_clock_speed_prescale false
        { resetRegs with VREF_CTRLA := 0x10 }).VREF_CTRLA = 0x12 :=
  ⟨fun _ => rfl, by decide,
   ((hwdef_setup_vref_ctrla mcu_clock_speed_prescale (fun _ => rfl) false).1
      { resetRegs with VREF_CTRLA := 0x10 } (by decide)).1⟩

end Anduril
